import Mathlib

/-!
Verification of the MiraAI conversation-turn pipeline.

The definitions below are a shallow embedding of the checked-in sources:

* `app/frontend/src/pages/Chat.jsx` (the unnamed source part holding the Chat
  page): `isValidCachedProfile`, the `init` effect, `handleSendMessage`,
  `handleUpdateConversationTitle`.
* `app/frontend/src/services/cognitoAuth.js`: `decodeJWT`, `clearSession`,
  `isAuthenticated`.
* `app/frontend/src/api/apiClient.js`: `request` (status handling).
* The backend Lambda handlers are not among the checked-in sources (only
  `app/backend/README.md` and the Terraform DynamoDB table definition are);
  where a property depends on them, the definition is modelled from the spec
  and says so in its doc comment.

JavaScript conventions are made explicit: `localStorage.getItem` returns an
optional string, string truthiness treats the empty string as false, and
number truthiness treats zero as false.
-/

namespace MiraAI

/-- JavaScript truthiness of an optional string: absent and empty are falsy. -/
def jsTruthy : Option String → Bool
  | none => false
  | some s => s != ""

/-- JavaScript truthiness of an optional number: absent and zero are falsy. -/
def jsTruthyInt : Option Int → Bool
  | none => false
  | some n => n != 0

/-- JavaScript `a || b` on optional strings: `b` unless `a` is truthy. -/
def jsOr (a b : Option String) : Option String :=
  if jsTruthy a then a else b

/-- JavaScript `String.prototype.trim`: strip whitespace from both ends.
Defined by structural recursion over the character list so that concrete
inputs evaluate inside proofs. -/
def jsTrim (s : String) : String :=
  String.mk (((s.data.dropWhile Char.isWhitespace).reverse.dropWhile
    Char.isWhitespace).reverse)

/-- A user profile as returned by `GET /profile` and cached in localStorage.
Only the fields the Chat page reads are modelled; `birth_date` is optional
because the page guards every use of it with a truthiness check. -/
structure UserProfile where
  birth_date : Option String := none
  zodiac_sign : Option String := none
  first_name : Option String := none
  deriving Repr, DecidableEq

/-- Five minutes in milliseconds, the profile cache expiry window used by
`isValidCachedProfile` in the Chat page. -/
def fiveMinutes : Int := 5 * 60 * 1000

/-- `isValidCachedProfile` from the Chat page.  Inputs are the parsed
localStorage entries (`user_profile`, `profile_check_time`,
`profile_user_id`), the current Cognito subject (`getCurrentUser()?.sub`) and
`Date.now()`.  Absent or unparseable entries are `none` (the JS falls into
the early `return null` or the `catch`).  The elapsed time is an `Int`
subtraction, as in the JS. -/
def isValidCachedProfile (cachedProfile : Option UserProfile)
    (profileCheckTime : Option Int) (cachedUserId : Option String)
    (currentSub : Option String) (now : Int) : Option UserProfile :=
  match cachedProfile, profileCheckTime with
  | some profile, some checkTime =>
    if jsTruthy cachedUserId && jsTruthy currentSub && (cachedUserId != currentSub) then
      none
    else if fiveMinutes ≤ now - checkTime then
      none
    else if jsTruthy profile.birth_date then
      some profile
    else
      none
  | _, _ => none

/-- A message entry of the Chat page state.  `ai_response` is null while a
turn is pending; `pending` models the `_pending` flag the page sets on the
optimistic entry.  The numeric `timestamp` field the page also sets (a
floating-point epoch value it never reads back) is not modelled. -/
structure ChatMessage where
  user_message : String
  ai_response : Option String := none
  chart_url : Option String := none
  created_at : String := ""
  pending : Bool := false
  deriving Repr, DecidableEq

/-- A conversation summary as held in the Chat page state and returned by the
conversations API.  Absent JSON fields are modelled by the defaults the page
falls back to (`message_count || 0`, empty strings). -/
structure ConversationSummary where
  conversation_id : String
  title : String := ""
  created_at : String := ""
  updated_at : String := ""
  message_count : Nat := 0
  deriving Repr, DecidableEq

/-- The `/chat` response consumed by `handleSendMessage`
(`{message, chart_url?, conversation_id?}`). -/
structure ChatResult where
  message : String
  chart_url : Option String := none
  conversation_id : Option String := none
  deriving Repr, DecidableEq

/-- An error thrown by `ApiClient.request`; `status` is absent for network
failures that never produced a response. -/
structure ApiError where
  status : Option Nat := none
  deriving Repr, DecidableEq

/-- The Chat page state touched by `handleSendMessage`. -/
structure SendState where
  messages : List ChatMessage := []
  conversations : List ConversationSummary := []
  currentConversation : Option ConversationSummary := none
  chartUrl : Option String := none
  sendingMessage : Bool := false
  deriving Repr, DecidableEq

/-- The local `conversationId` of `handleSendMessage`:
`currentConversation?.conversation_id || null`. -/
def currentConvId (st : SendState) : Option String :=
  match st.currentConversation with
  | some c => if c.conversation_id = "" then none else some c.conversation_id
  | none => none

/-- The client-side title of a freshly created conversation:
`message.slice(0, 50) + (message.length > 50 ? three dots : empty)`. -/
def newConversationTitle (message : String) : String :=
  message.take 50 ++ (if 50 < message.length then "..." else "")

/-- `handleSendMessage` from the Chat page.  The `outcome` argument is the
settled result of `apiClient.chat.sendMessage`; `refreshedConversations` is
what `loadConversations` returns when the new-conversation branch re-fetches
the list; `nowIso` is `new Date().toISOString()`.  URL `pushState` and the
error `alert` are side effects outside the modelled state. -/
def handleSendMessage (st : SendState) (message : String)
    (outcome : Except ApiError ChatResult)
    (refreshedConversations : List ConversationSummary)
    (nowIso : String) : SendState :=
  if jsTrim message == "" || st.sendingMessage then st
  else
    let tempUserMessage : ChatMessage :=
      { user_message := message, ai_response := none, created_at := nowIso,
        pending := true }
    let afterOptimistic := st.messages ++ [tempUserMessage]
    match outcome with
    | Except.ok result =>
      let newMessage : ChatMessage :=
        { user_message := message, ai_response := some result.message,
          chart_url := result.chart_url, created_at := nowIso,
          pending := false }
      let msgs := afterOptimistic.filter (fun m => !m.pending) ++ [newMessage]
      let chartUrl :=
        if jsTruthy result.chart_url then result.chart_url else st.chartUrl
      let conversationId := currentConvId st
      if jsTruthy result.conversation_id && conversationId.isNone then
        let newConvo : ConversationSummary :=
          { conversation_id := result.conversation_id.getD "",
            title := newConversationTitle message,
            created_at := nowIso, updated_at := nowIso, message_count := 1 }
        { st with
          messages := msgs
          chartUrl := chartUrl
          currentConversation := some newConvo
          conversations := refreshedConversations
          sendingMessage := false }
      else if conversationId.isSome then
        { st with
          messages := msgs
          chartUrl := chartUrl
          currentConversation := st.currentConversation.map (fun c =>
            { c with
              message_count := c.message_count + 1
              updated_at := nowIso })
          sendingMessage := false }
      else
        { st with
          messages := msgs
          chartUrl := chartUrl
          sendingMessage := false }
    | Except.error _ =>
      { st with
        messages := afterOptimistic.filter (fun m => !m.pending)
        sendingMessage := false }

/-- An error surfaced by `ApiClient.request` or by a backend handler: the
`Unauthorized` rejection, a not-found rejection carrying the parsed error
body, or any other non-2xx status with its body. -/
inductive RequestError where
  | unauthorized : RequestError
  | notFound (data : String) : RequestError
  | httpError (status : Nat) (data : String) : RequestError
  deriving Repr, DecidableEq

/-- A persisted conversation turn.  `seq` is the timestamp-derived sequence
marker backing the DynamoDB `sk` range key of the `conversations` table
(hash key `user_id`, range key `sk` in the Terraform definition); it is
modelled as an integer ordered the way the range key orders items. -/
structure ConversationTurn where
  user_id : String := ""
  conversation_id : String := ""
  seq : Int := 0
  user_message : String := ""
  ai_response : String := ""
  deriving Repr, DecidableEq

/-- Outcome classification of the generative-model call. -/
inductive ModelOutcome where
  | generated (text : String) : ModelOutcome
  | timeout : ModelOutcome
  | providerError : ModelOutcome
  deriving Repr, DecidableEq

/-- The user-facing apology persisted and returned when the model call fails. -/
def fallbackMessage : String :=
  "Sorry, the assistant could not respond right now. Please try again."

/-- Modelled from the spec: the backend `/chat` Lambda handler is not among
the checked-in sources (only `app/backend/README.md` and the Terraform wiring
exist), so the orchestrator tail is taken from the spec: on model timeout or
provider error it does not fail the request; it persists a turn whose
response field is the fallback text and returns that text as a successful
`/chat` response. -/
def chatTurnOrchestrator (store : List ConversationTurn)
    (userId conversationId message : String) (seq : Int)
    (model : ModelOutcome) :
    List ConversationTurn × Except RequestError ChatResult :=
  let respond (text : String) :
      List ConversationTurn × Except RequestError ChatResult :=
    (store ++ [{ user_id := userId, conversation_id := conversationId,
                 seq := seq, user_message := message, ai_response := text }],
     Except.ok { message := text, conversation_id := some conversationId })
  match model with
  | ModelOutcome.generated text => respond text
  | ModelOutcome.timeout => respond fallbackMessage
  | ModelOutcome.providerError => respond fallbackMessage

/-- `handleUpdateConversationTitle` from the Chat page, success path: after
`apiClient.conversations.updateTitle` resolves, the conversation list maps
the edited entry to one with the new title and a fresh `updated_at`, and the
current conversation gets the new title when it is the edited one.  Returns
the updated pair (conversation list, current conversation). -/
def handleUpdateConversationTitle (convs : List ConversationSummary)
    (current : Option ConversationSummary)
    (conversationId newTitle nowIso : String) :
    List ConversationSummary × Option ConversationSummary :=
  let convsUpdated := convs.map (fun conv =>
    if conv.conversation_id = conversationId then
      { conv with title := newTitle, updated_at := nowIso }
    else conv)
  let currentUpdated :=
    if (match current with
        | some c => c.conversation_id == conversationId
        | none => false) then
      current.map (fun c => { c with title := newTitle })
    else current
  (convsUpdated, currentUpdated)

/-- A JWT as the client holds it.  `wellFormed` abstracts having three
dot-separated parts with a base64 JSON payload; `signatureValid` records
whether the token's signature actually verifies against the issuer key — a
fact about the token that the client code may or may not consult. -/
structure JwtToken where
  wellFormed : Bool := true
  signatureValid : Bool := true
  sub : String := ""
  exp : Int := 0
  iat : Int := 0
  deriving Repr, DecidableEq

/-- The decoded JWT payload claims read by the client. -/
structure JwtPayload where
  sub : String
  exp : Int
  iat : Int
  deriving Repr, DecidableEq

/-- `decodeJWT` from `cognitoAuth.js`: splits the token and base64-decodes
the payload, returning `null` on a malformed token.  As its own comment says
it decodes "without verification - server should verify": the
`signatureValid` field is never consulted. -/
def decodeJWT (token : JwtToken) : Option JwtPayload :=
  if token.wellFormed then
    some { sub := token.sub, exp := token.exp, iat := token.iat }
  else
    none

/-- The `cognito_tokens` record stored by the auth service.  `expiresAt` is
the client-computed expiry epoch (milliseconds). -/
structure StoredTokens where
  idToken : Option JwtToken := none
  accessToken : Option String := none
  expiresAt : Option Int := none
  deriving Repr, DecidableEq

/-- The `cognito_user_info` record extracted from the ID token. -/
structure CognitoUserInfo where
  sub : String := ""
  email : String := ""
  deriving Repr, DecidableEq

/-- The auth service session: the in-memory `this.tokens` / `this.userInfo`
plus the mirrored localStorage entries (`cognito_tokens`,
`cognito_user_info`) and the legacy `auth_token` key. -/
structure AuthSession where
  tokens : Option StoredTokens := none
  userInfo : Option CognitoUserInfo := none
  storedTokens : Option StoredTokens := none
  storedUserInfo : Option CognitoUserInfo := none
  legacyAuthToken : Option String := none
  deriving Repr, DecidableEq

/-- `clearSession` from `cognitoAuth.js`: nulls the in-memory fields and
removes `cognito_tokens`, `cognito_user_info` and the legacy `auth_token`
from localStorage. -/
def clearSession (_s : AuthSession) : AuthSession :=
  { tokens := none, userInfo := none, storedTokens := none,
    storedUserInfo := none, legacyAuthToken := none }

/-- `isAuthenticated` from `cognitoAuth.js`: false without tokens or an id
token; if a truthy `expiresAt` lies in the past, clears the session and
returns false; otherwise true.  Returns the flag together with the session
it leaves behind. -/
def isAuthenticated (s : AuthSession) (now : Int) : Bool × AuthSession :=
  match s.tokens with
  | none => (false, s)
  | some tk =>
    if tk.idToken.isNone then
      (false, s)
    else if jsTruthyInt tk.expiresAt && decide (tk.expiresAt.getD 0 < now) then
      (false, clearSession s)
    else
      (true, s)

/-- Replace the signature-validity fact of the session's id token, leaving
everything the client code reads untouched. -/
def withSignatureValidity (s : AuthSession) (b : Bool) : AuthSession :=
  { s with
    tokens := s.tokens.map (fun tk =>
      { tk with
        idToken := tk.idToken.map (fun t =>
          { t with signatureValid := b }) }) }

/-- An HTTP response as seen by `ApiClient.request`; `body` is the parsed
JSON body (the `.json()` result, or the fallback object on parse failure)
rendered as a string. -/
structure HttpResponse where
  status : Nat
  body : String := ""
  deriving Repr, DecidableEq

/-- `ApiClient.request` from `apiClient.js`, given the fetched response:
2xx returns the body; 401 clears the whole session and throws Unauthorized;
404 throws a not-found error carrying the body; anything else throws with
its status and body.  (`response.ok` is status in [200, 300).)  The redirect
to the landing page on 401 is a navigation side effect outside the modelled
state. -/
def request (session : AuthSession) (resp : HttpResponse) :
    AuthSession × Except RequestError String :=
  if 200 ≤ resp.status && resp.status < 300 then
    (session, Except.ok resp.body)
  else if resp.status == 401 then
    (clearSession session, Except.error RequestError.unauthorized)
  else if resp.status == 404 then
    (session, Except.error (RequestError.notFound resp.body))
  else
    (session, Except.error (RequestError.httpError resp.status resp.body))

/-- The environment the Chat page `init` effect runs in: the localStorage
profile-cache entries and current subject (inputs of `isValidCachedProfile`),
the settled result of `apiClient.profile.get`, the list `loadConversations`
yields (already `[]` on its own caught errors), the `conversation` URL
parameter, and what `loadConversationMessages` yields per conversation id. -/
structure InitEnv where
  cachedProfile : Option UserProfile := none
  profileCheckTime : Option Int := none
  cachedUserId : Option String := none
  currentSub : Option String := none
  now : Int := 0
  apiProfile : Except ApiError UserProfile := Except.error {}
  conversationsList : List ConversationSummary := []
  urlConversationId : Option String := none
  messagesFor : String → List ChatMessage := fun _ => []

/-- The observable outcome of the Chat page `init` effect.
`conversationsRequested` records whether `loadConversations` was invoked at
all; on the onboarding redirect it never is. -/
structure InitResult where
  redirectedToOnboarding : Bool := false
  cacheCleared : Bool := false
  user : Option UserProfile := none
  conversationsRequested : Bool := false
  conversations : List ConversationSummary := []
  currentConversation : Option ConversationSummary := none
  messages : List ChatMessage := []
  chartUrl : Option String := none

/-- The latest truthy `chart_url` of a message list:
`msgs.reduce((url, msg) => msg.chart_url || url, null)`, then only applied
when truthy. -/
def latestChartUrl (msgs : List ChatMessage) : Option String :=
  jsOr (msgs.foldl (fun url m => jsOr m.chart_url url) none) none

/-- The tail of the Chat page `init` effect once a profile with birth data is
in hand: load conversations, then select the URL conversation (falling back
to a bare summary when it is not in the list) or the most recent one. -/
def chatPageProceed (env : InitEnv) (p : UserProfile) : InitResult :=
  let convos := env.conversationsList
  match env.urlConversationId with
  | some cid =>
    let msgs := env.messagesFor cid
    let current :=
      match convos.find? (fun c => c.conversation_id == cid) with
      | some convo => some convo
      | none => some { conversation_id := cid }
    { user := some p, conversationsRequested := true, conversations := convos,
      currentConversation := current, messages := msgs,
      chartUrl := latestChartUrl msgs }
  | none =>
    match convos with
    | [] =>
      { user := some p, conversationsRequested := true, conversations := [] }
    | latest :: rest =>
      let msgs := env.messagesFor latest.conversation_id
      { user := some p, conversationsRequested := true,
        conversations := latest :: rest, currentConversation := some latest,
        messages := msgs, chartUrl := latestChartUrl msgs }

/-- The Chat page `init` effect.  A valid cached profile skips the API call;
otherwise the profile is fetched, any fetch error (404 or other) clears the
profile cache and redirects to onboarding before anything else happens, and a
profile without birth data does the same.  Only with a profile in hand does
the page load conversations and messages. -/
def chatPageInit (env : InitEnv) : InitResult :=
  let cached := isValidCachedProfile env.cachedProfile env.profileCheckTime
    env.cachedUserId env.currentSub env.now
  match cached with
  | some p =>
    if jsTruthy p.birth_date then chatPageProceed env p
    else { redirectedToOnboarding := true, cacheCleared := true }
  | none =>
    match env.apiProfile with
    | Except.error _ =>
      { redirectedToOnboarding := true, cacheCleared := true }
    | Except.ok p =>
      if jsTruthy p.birth_date then chatPageProceed env p
      else { redirectedToOnboarding := true, cacheCleared := true }

/-- A conversation record of the DynamoDB `conversations` table (hash key
`user_id`, range key `sk`, per the Terraform definition). -/
structure StoredConversation where
  user_id : String
  conversation_id : String
  title : String := ""
  is_deleted : Bool := false
  deriving Repr, DecidableEq

/-- Modelled from the spec: the backend conversation-retrieval Lambda is not
among the checked-in sources (only `app/backend/README.md`, the frontend API
client and the Terraform table definition are), so lookup follows the spec's
contract: every operation is keyed inside the requesting user's partition
(hash key `user_id`), and a conversation id that does not exist under that
partition — including one owned by another user — yields a not-found error,
never a permission error. -/
def getConversation (store : List StoredConversation) (requester : String)
    (conversationId : String) : Except RequestError StoredConversation :=
  match store.find? (fun c =>
      c.user_id == requester && c.conversation_id == conversationId) with
  | some c => Except.ok c
  | none => Except.error (RequestError.notFound "Conversation not found")

/-- Modelled from the spec: the key-condition part of the backend `get_turns`
page query (the Lambda is not among the checked-in sources) — the turns of a
conversation strictly before a cursor; no cursor keeps them all. -/
def turnsBefore (turns : List ConversationTurn) : Option Int →
    List ConversationTurn
  | some b => turns.filter (fun t => decide (t.seq < b))
  | none => turns

/-- Modelled from the spec: the backend `get_turns` Lambda is not among the
checked-in sources (only `app/backend/README.md` and the Terraform
`conversations` table with hash key `user_id` and range key `sk` are), so
retrieval follows the spec's contract: the turns of a conversation live in
one partition ordered by their unique sequence marker (the `sk` range key),
and `get_turns` returns the last `limit` turns strictly before the `before`
cursor — or from the end without a cursor — oldest-first within the page. -/
def getTurns (turns : List ConversationTurn) (limit : Nat)
    (before : Option Int) : List ConversationTurn :=
  let page := turnsBefore turns before
  page.drop (page.length - limit)

/-- A concrete five-turn conversation used as the pagination witness. -/
def fiveTurns : List ConversationTurn :=
  [{ seq := 1 }, { seq := 2 }, { seq := 3 }, { seq := 4 }, { seq := 5 }]

end MiraAI

namespace MiraAI

/-- Claim C3: a cached profile read never serves a stale or foreign entry.
If the time elapsed since the entry was stored is at least the five-minute
expiry window, or the entry was stored for a different (present, nonempty)
user id than the current subject, `isValidCachedProfile` returns `none`. -/
theorem c3_cached_profile_never_served_stale (profile : UserProfile)
    (checkTime : Int) (cachedUserId currentSub : Option String) (now : Int)
    (h : fiveMinutes ≤ now - checkTime ∨
      (jsTruthy cachedUserId = true ∧ jsTruthy currentSub = true ∧
        cachedUserId ≠ currentSub)) :
    isValidCachedProfile (some profile) (some checkTime) cachedUserId
      currentSub now = none := by
  rcases h with h | ⟨h1, h2, h3⟩
  · by_cases hc : (jsTruthy cachedUserId && jsTruthy currentSub &&
        (cachedUserId != currentSub)) = true
    · simp [isValidCachedProfile, hc]
    · simp [isValidCachedProfile, hc, h]
  · have hb : (cachedUserId != currentSub) = true := bne_iff_ne.2 h3
    simp [isValidCachedProfile, h1, h2, hb]

/-- Witness for C3 at a concrete input: an entry stored at time 0 and read
exactly five minutes later is a miss. -/
theorem c3_cached_profile_never_served_stale_witness :
    isValidCachedProfile (some { birth_date := some "1990-01-01" }) (some 0)
      (some "user-a") (some "user-a") 300000 = none :=
  c3_cached_profile_never_served_stale { birth_date := some "1990-01-01" } 0
    (some "user-a") (some "user-a") 300000 (Or.inl (by decide))

/-- An element surviving the not-pending filter is not pending. -/
theorem mem_filter_not_pending {l : List ChatMessage} {m : ChatMessage}
    (h : m ∈ l.filter (fun x => !x.pending)) : m.pending = false := by
  have h2 := (List.mem_filter.1 h).2
  simpa using h2

/-- On a settled `/chat` success, the message list is the previous list
stripped of pending entries plus the completed turn entry. -/
theorem handleSendMessage_messages_ok (st : SendState) (message : String)
    (result : ChatResult) (refreshed : List ConversationSummary)
    (nowIso : String)
    (hguard : (jsTrim message == "" || st.sendingMessage) = false) :
    (handleSendMessage st message (Except.ok result) refreshed nowIso).messages =
      st.messages.filter (fun m => !m.pending) ++
        [{ user_message := message, ai_response := some result.message,
           chart_url := result.chart_url, created_at := nowIso,
           pending := false }] := by
  by_cases h1 : (jsTruthy result.conversation_id && (currentConvId st).isNone) = true
  · simp [handleSendMessage, hguard, h1, List.filter_append]
  · by_cases h2 : (currentConvId st).isSome = true
    · simp [handleSendMessage, hguard, h1, h2, List.filter_append]
    · simp [handleSendMessage, hguard, h1, h2, List.filter_append]

/-- On a rejected `/chat` request, the message list is the previous list
stripped of pending entries: the optimistic entry is removed. -/
theorem handleSendMessage_messages_error (st : SendState) (message : String)
    (e : ApiError) (refreshed : List ConversationSummary) (nowIso : String)
    (hguard : (jsTrim message == "" || st.sendingMessage) = false) :
    (handleSendMessage st message (Except.error e) refreshed nowIso).messages =
      st.messages.filter (fun m => !m.pending) := by
  simp [handleSendMessage, hguard, List.filter_append]

/-- Claim C8: pending entries never outlive the send-message flow.  For any
invocation that actually starts a request (nonempty trimmed message, no send
already in flight), whatever the outcome of the `/chat` request, the final
message list contains no entry with the pending flag. -/
theorem c8_no_pending_after_flow_completes (st : SendState) (message : String)
    (outcome : Except ApiError ChatResult)
    (refreshed : List ConversationSummary) (nowIso : String)
    (hmsg : jsTrim message ≠ "") (hsend : st.sendingMessage = false) :
    ∀ m ∈ (handleSendMessage st message outcome refreshed nowIso).messages,
      m.pending = false := by
  have hguard : (jsTrim message == "" || st.sendingMessage) = false := by
    simp [hsend, hmsg]
  intro m hm
  cases outcome with
  | ok result =>
    rw [handleSendMessage_messages_ok st message result refreshed nowIso hguard] at hm
    rcases List.mem_append.1 hm with h | h
    · exact mem_filter_not_pending h
    · rw [List.mem_singleton.1 h]
  | error e =>
    rw [handleSendMessage_messages_error st message e refreshed nowIso hguard] at hm
    exact mem_filter_not_pending hm

/-- Witness for C8 at a concrete input: a successful send starting from a list
that still holds a pending entry ends with no pending entries. -/
theorem c8_no_pending_after_flow_completes_witness :
    ((handleSendMessage
        { messages := [{ user_message := "old", pending := true }] } "hi"
        (Except.ok { message := "hello there" }) [] "t").messages.all
      (fun m => !m.pending)) = true := by
  have h := c8_no_pending_after_flow_completes
    { messages := [{ user_message := "old", pending := true }] } "hi"
    (Except.ok { message := "hello there" }) [] "t" (by decide) rfl
  exact List.all_eq_true.2 (fun m hm => by simp [h m hm])

/-- Claim C10: when a sent message starts a new conversation (no current
conversation id, and the `/chat` response carries a conversation id), the
client-side summary has the first 50 characters of the message as its title,
with the ellipsis appended exactly when the message is longer than 50
characters, and a message count of 1. -/
theorem c10_new_conversation_title_and_count (st : SendState)
    (message : String) (result : ChatResult)
    (refreshed : List ConversationSummary) (nowIso cid : String)
    (hmsg : jsTrim message ≠ "") (hsend : st.sendingMessage = false)
    (hcur : st.currentConversation = none)
    (hcid : result.conversation_id = some cid) (hne : cid ≠ "") :
    (handleSendMessage st message (Except.ok result) refreshed
        nowIso).currentConversation =
      some { conversation_id := cid
             title := message.take 50 ++
               (if 50 < message.length then "..." else "")
             created_at := nowIso
             updated_at := nowIso
             message_count := 1 } := by
  have hguard : (jsTrim message == "" || st.sendingMessage) = false := by
    simp [hsend, hmsg]
  have hconv : currentConvId st = none := by simp [currentConvId, hcur]
  have h1 : (jsTruthy result.conversation_id &&
      (currentConvId st).isNone) = true := by
    simp [jsTruthy, hcid, hne, hconv]
  simp [handleSendMessage, hguard, h1, hcid, hconv, hne, jsTruthy,
    bne_iff_ne, newConversationTitle]

/-- Witness for C10 at a concrete input: a 56-character message yields a
51-character title ending in the ellipsis and a count of 1. -/
theorem c10_new_conversation_title_and_count_witness :
    (handleSendMessage {}
        "What does my birth chart say about my career this year?"
        (Except.ok { message := "reply", conversation_id := some "c-1" })
        [] "t").currentConversation =
      some { conversation_id := "c-1"
             title := "What does my birth chart say about my career this year?".take 50 ++
               (if 50 < "What does my birth chart say about my career this year?".length
                then "..." else "")
             created_at := "t"
             updated_at := "t"
             message_count := 1 } :=
  c10_new_conversation_title_and_count {}
    "What does my birth chart say about my career this year?"
    { message := "reply", conversation_id := some "c-1" } [] "t" "c-1"
    (by decide) rfl rfl rfl (by decide)

/-- Counterexample to claim C1 as stated: at this concrete input the `/chat`
request rejects (HTTP 500) and the flow afterwards leaves the message list
empty — the user message is removed together with its pending flag, and no
fallback entry is added, so the conversation holds no trace of the turn
rather than the user message paired with a fallback response. -/
theorem c1_counterexample_reject_drops_message :
    (handleSendMessage { messages := [] } "hello"
        (Except.error { status := some 500 }) [] "t").messages = [] := by
  decide

/-- The completed-turn entry is always present in the message list after a
successful `/chat` response. -/
theorem handleSendMessage_completed_mem (st : SendState) (message : String)
    (result : ChatResult) (refreshed : List ConversationSummary)
    (nowIso : String)
    (hguard : (jsTrim message == "" || st.sendingMessage) = false) :
    ({ user_message := message, ai_response := some result.message,
       chart_url := result.chart_url, created_at := nowIso,
       pending := false } : ChatMessage) ∈
      (handleSendMessage st message (Except.ok result) refreshed
        nowIso).messages := by
  rw [handleSendMessage_messages_ok st message result refreshed nowIso hguard]
  exact List.mem_append_right _ (List.mem_singleton.2 rfl)

/-- Claim C1 (amended): a model failure is absorbed by the backend, not
surfaced as a rejected request.  When the model call times out or errors, the
`/chat` handler (modelled from the spec) persists a turn whose response field
is the fallback text and resolves successfully with that text, and the
completed send-message flow leaves the user message paired with the fallback
response in the conversation.  Only when the `/chat` request itself rejects
does the client drop the optimistic message. -/
theorem c1_model_failure_persists_fallback_turn
    (store : List ConversationTurn) (userId conversationId message : String)
    (seq : Int) (model : ModelOutcome) (st : SendState)
    (refreshed : List ConversationSummary) (nowIso : String)
    (hmodel : model = ModelOutcome.timeout ∨ model = ModelOutcome.providerError)
    (hmsg : jsTrim message ≠ "") (hsend : st.sendingMessage = false) :
    ∃ r, (chatTurnOrchestrator store userId conversationId message seq
        model).2 = Except.ok r ∧
      r.message = fallbackMessage ∧
      (∃ t ∈ (chatTurnOrchestrator store userId conversationId message seq
          model).1, t.user_message = message ∧ t.ai_response = fallbackMessage) ∧
      (∃ m ∈ (handleSendMessage st message (Except.ok r) refreshed
          nowIso).messages,
        m.user_message = message ∧ m.ai_response = some fallbackMessage) := by
  have hguard : (jsTrim message == "" || st.sendingMessage) = false := by
    simp [hsend, hmsg]
  have hmem := fun r => handleSendMessage_completed_mem st message r refreshed
    nowIso hguard
  rcases hmodel with h | h <;> subst h <;>
    exact ⟨_, rfl, rfl,
      ⟨_, List.mem_append_right _ (List.mem_singleton.2 rfl), rfl, rfl⟩,
      ⟨_, hmem _, rfl, rfl⟩⟩

/-- Witness for the amended C1 at a concrete input: a model timeout yields a
successful response carrying the fallback text, a persisted fallback turn,
and a final message list pairing the user message with the fallback. -/
theorem c1_model_failure_persists_fallback_turn_witness :
    ∃ r, (chatTurnOrchestrator [] "u1" "c1" "hello" 7
        ModelOutcome.timeout).2 = Except.ok r ∧
      r.message = fallbackMessage ∧
      (∃ t ∈ (chatTurnOrchestrator [] "u1" "c1" "hello" 7
          ModelOutcome.timeout).1,
        t.user_message = "hello" ∧ t.ai_response = fallbackMessage) ∧
      (∃ m ∈ (handleSendMessage {} "hello" (Except.ok r) [] "t").messages,
        m.user_message = "hello" ∧ m.ai_response = some fallbackMessage) :=
  c1_model_failure_persists_fallback_turn [] "u1" "c1" "hello" 7
    ModelOutcome.timeout {} [] "t" (Or.inl rfl) (by decide) rfl

/-- Claim C7: renaming a conversation is idempotent.  Applying the rename
update twice with the same title (at the same observation time) yields the
same conversation list and current conversation as applying it once. -/
theorem c7_rename_conversation_idempotent (convs : List ConversationSummary)
    (current : Option ConversationSummary)
    (conversationId newTitle nowIso : String) :
    handleUpdateConversationTitle
        (handleUpdateConversationTitle convs current conversationId newTitle
          nowIso).1
        (handleUpdateConversationTitle convs current conversationId newTitle
          nowIso).2
        conversationId newTitle nowIso =
      handleUpdateConversationTitle convs current conversationId newTitle
        nowIso := by
  simp only [handleUpdateConversationTitle, Prod.mk.injEq]
  constructor
  · rw [List.map_map]
    apply List.map_congr_left
    intro c _
    by_cases h : c.conversation_id = conversationId
    · simp [Function.comp_apply, h]
    · simp [Function.comp_apply, h]
  · cases current with
    | none => rfl
    | some c =>
      by_cases h : (c.conversation_id == conversationId) = true
      · simp [h]
      · simp [h]

/-- Claim C9: every 401 response clears the entire stored session — in-memory
and localStorage token records (holding both the id and access tokens), the
cached user info, and the legacy key — and the request rejects with the
Unauthorized error; the response body is never returned to the caller. -/
theorem c9_unauthorized_clears_session_and_rejects (session : AuthSession)
    (resp : HttpResponse) (h : resp.status = 401) :
    request session resp =
      ({ tokens := none, userInfo := none, storedTokens := none,
         storedUserInfo := none, legacyAuthToken := none },
       Except.error RequestError.unauthorized) := by
  have h1 : (200 ≤ resp.status && resp.status < 300) = false := by
    rw [h]; decide
  have h2 : (resp.status == 401) = true := by
    rw [h]; decide
  simp [request, h1, h2, clearSession]

/-- Witness for C9 at a concrete input: a fully populated session is wiped
and the call rejects. -/
theorem c9_unauthorized_clears_session_and_rejects_witness :
    request
      { tokens := some { idToken := some {}, accessToken := some "acc",
                         expiresAt := some 99 }
        userInfo := some { sub := "u" }
        storedTokens := some { accessToken := some "acc" }
        storedUserInfo := some { sub := "u" }
        legacyAuthToken := some "old" }
      { status := 401, body := "denied" } =
      ({ tokens := none, userInfo := none, storedTokens := none,
         storedUserInfo := none, legacyAuthToken := none },
       Except.error RequestError.unauthorized) :=
  c9_unauthorized_clears_session_and_rejects _ _ rfl

/-- Counterexample to claim C4 as stated: at this concrete input the client
treats the holder as authenticated (`isAuthenticated` returns true) although
the id token's signature does not verify; no client-side signature check
exists — `decodeJWT` decodes "without verification - server should verify". -/
theorem c4_counterexample_signature_not_checked :
    (isAuthenticated
        { tokens := some { idToken := some { signatureValid := false },
                           expiresAt := some 2000 } } 1000).1 = true ∧
      (({ tokens := some { idToken := some { signatureValid := false },
                           expiresAt := some 2000 } } :
          AuthSession).tokens.bind StoredTokens.idToken).map
        JwtToken.signatureValid = some false := by
  decide

/-- Claim C4 (amended): before trusting a token the client validates only its
presence and its client-tracked expiry: an expired token is rejected and the
session cleared, while the token's signature validity is never consulted
client-side — changing it cannot change the authentication verdict
(verification is delegated to the server). -/
theorem c4_client_validates_expiry_not_signature (s : AuthSession)
    (now : Int) :
    (∀ b, (isAuthenticated (withSignatureValidity s b) now).1 =
      (isAuthenticated s now).1) ∧
    (∀ tk e, s.tokens = some tk → tk.idToken.isSome = true →
      tk.expiresAt = some e → e ≠ 0 → e < now →
      isAuthenticated s now = (false, clearSession s)) := by
  constructor
  · intro b
    cases htk : s.tokens with
    | none => simp [isAuthenticated, withSignatureValidity, htk]
    | some tk =>
      cases hid : tk.idToken with
      | none => simp [isAuthenticated, withSignatureValidity, htk, hid]
      | some t =>
        simp only [isAuthenticated, withSignatureValidity, htk, hid,
          Option.map_some']
        by_cases hc : (jsTruthyInt tk.expiresAt &&
            decide (tk.expiresAt.getD 0 < now)) = true <;>
          simp [hc]
  · intro tk e htk hid hexp hne hlt
    obtain ⟨t, hid'⟩ := Option.isSome_iff_exists.1 hid
    have hc : (jsTruthyInt tk.expiresAt &&
        decide (tk.expiresAt.getD 0 < now)) = true := by
      simp [jsTruthyInt, hexp, bne_iff_ne, hne, hlt]
    simp [isAuthenticated, htk, hid', hc]

/-- Witness for the amended C4 at concrete inputs: flipping the signature
fact leaves the verdict unchanged, and an expired token is rejected with the
session cleared. -/
theorem c4_client_validates_expiry_not_signature_witness :
    ((isAuthenticated (withSignatureValidity
        { tokens := some { idToken := some {}, expiresAt := some 2000 } }
        false) 1000).1 =
      (isAuthenticated
        { tokens := some { idToken := some {}, expiresAt := some 2000 } }
        1000).1) ∧
    isAuthenticated
        { tokens := some { idToken := some {}, expiresAt := some 5 } } 1000 =
      (false, clearSession
        { tokens := some { idToken := some {}, expiresAt := some 5 } }) :=
  ⟨(c4_client_validates_expiry_not_signature
      { tokens := some { idToken := some {}, expiresAt := some 2000 } }
      1000).1 false,
   (c4_client_validates_expiry_not_signature
      { tokens := some { idToken := some {}, expiresAt := some 5 } }
      1000).2 { idToken := some {}, expiresAt := some 5 } 5 rfl rfl rfl
      (by decide) (by decide)⟩

/-- Claim C2: a user whose profile lookup returns 404 (with no valid cached
profile short-circuiting the lookup) is redirected to onboarding before any
further step: `loadConversations` is never invoked, no conversation is
selected or created, and no messages or turns exist in the resulting state. -/
theorem c2_profile_404_short_circuits_to_onboarding (env : InitEnv)
    (e : ApiError)
    (hcache : isValidCachedProfile env.cachedProfile env.profileCheckTime
      env.cachedUserId env.currentSub env.now = none)
    (hstatus : e.status = some 404)
    (happ : env.apiProfile = Except.error e) :
    chatPageInit env =
      { redirectedToOnboarding := true, cacheCleared := true } := by
  simp [chatPageInit, hcache, happ]

/-- Witness for C2 at a concrete input: empty cache, 404 from the profile
API. -/
theorem c2_profile_404_short_circuits_to_onboarding_witness :
    chatPageInit { apiProfile := Except.error { status := some 404 } } =
      { redirectedToOnboarding := true, cacheCleared := true } :=
  c2_profile_404_short_circuits_to_onboarding
    { apiProfile := Except.error { status := some 404 } }
    { status := some 404 } rfl rfl rfl

/-- Claim C6: conversation access is scoped to the requesting user, and a
conversation id owned only by other users yields exactly the not-found
outcome of a nonexistent id — a NotFoundError, never an authorization
error. -/
theorem c6_cross_user_access_is_not_found (store : List StoredConversation)
    (userA conversationId freshId : String)
    (hOther : ∀ c ∈ store, c.conversation_id = conversationId →
      c.user_id ≠ userA)
    (hFresh : ∀ c ∈ store, c.conversation_id ≠ freshId) :
    getConversation store userA conversationId =
        Except.error (RequestError.notFound "Conversation not found") ∧
      getConversation store userA conversationId =
        getConversation store userA freshId := by
  have h1 : store.find? (fun c =>
      c.user_id == userA && c.conversation_id == conversationId) = none := by
    apply List.find?_eq_none.2
    intro c hc
    simp only [Bool.and_eq_true, beq_iff_eq, not_and]
    intro hu hcid
    exact hOther c hc hcid hu
  have h2 : store.find? (fun c =>
      c.user_id == userA && c.conversation_id == freshId) = none := by
    apply List.find?_eq_none.2
    intro c hc
    simp only [Bool.and_eq_true, beq_iff_eq, not_and]
    intro _ hcid
    exact hFresh c hc hcid
  simp only [getConversation, h1, h2]
  exact ⟨trivial, trivial⟩

/-- Witness for C6 at a concrete input: user A requesting B's conversation
gets the same not-found error as requesting an id that exists nowhere. -/
theorem c6_cross_user_access_is_not_found_witness :
    getConversation [{ user_id := "B", conversation_id := "c1" }] "A" "c1" =
        Except.error (RequestError.notFound "Conversation not found") ∧
      getConversation [{ user_id := "B", conversation_id := "c1" }] "A" "c1" =
        getConversation [{ user_id := "B", conversation_id := "c1" }] "A"
          "missing" :=
  c6_cross_user_access_is_not_found
    [{ user_id := "B", conversation_id := "c1" }] "A" "c1" "missing"
    (by decide) (by decide)

/-- In a list strictly sorted on the sequence marker, the elements with
marker below that of the element at index `k` are exactly the first `k`
elements. -/
theorem sorted_filter_lt_eq_take (l : List ConversationTurn) (k : Nat)
    (hk : k < l.length)
    (hs : l.Pairwise (fun a b => a.seq < b.seq)) :
    l.filter (fun t => decide (t.seq < l[k].seq)) = l.take k := by
  induction l generalizing k with
  | nil => simp at hk
  | cons x xs ih =>
    rcases List.pairwise_cons.1 hs with ⟨hx, hxs⟩
    cases k with
    | zero =>
      rw [List.take_zero]
      refine List.filter_eq_nil_iff.2 ?_
      intro t ht
      simp only [List.getElem_cons_zero, decide_eq_true_eq, not_lt]
      rcases List.mem_cons.1 ht with rfl | ht
      · exact le_refl _
      · exact (hx t ht).le
    | succ k' =>
      have hk' : k' < xs.length := by
        simpa using hk
      have hxk : x.seq < xs[k'].seq := hx _ (List.getElem_mem hk')
      simp only [List.getElem_cons_succ]
      rw [List.filter_cons, if_pos (decide_eq_true hxk), List.take_succ_cons]
      exact congrArg (x :: ·) (ih k' hk' hxs)

/-- Filtering the turns below a cursor that itself lies below the page bound
is unaffected by first restricting to the page bound. -/
theorem filter_lt_turnsBefore (turns : List ConversationTurn)
    (b : Option Int) (c : Int) (hcb : ∀ b0, b = some b0 → c ≤ b0) :
    turns.filter (fun t => decide (t.seq < c)) =
      (turnsBefore turns b).filter (fun t => decide (t.seq < c)) := by
  cases b with
  | none => rfl
  | some b0 =>
    have hc := hcb b0 rfl
    simp only [turnsBefore, List.filter_filter]
    refine List.filter_congr ?_
    intro t _
    by_cases h : t.seq < c
    · simp [h, lt_of_lt_of_le h hc]
    · simp [h]

/-- Dropping inside a prefix and appending the matching suffix is a single
drop. -/
theorem drop_take_append_drop {α : Type} (l : List α) (m j : Nat)
    (hj : j ≤ m) (hjl : j ≤ l.length) :
    (l.take m).drop j ++ l.drop m = l.drop j := by
  conv_rhs => rw [← List.take_append_drop m l]
  rw [List.drop_append_eq_append_drop]
  have h0 : j - (l.take m).length = 0 := by
    simp only [List.length_take]
    omega
  rw [h0, List.drop_zero]

/-- Restricting to a page bound preserves strict sortedness. -/
theorem pairwise_turnsBefore (turns : List ConversationTurn) (b : Option Int)
    (hs : turns.Pairwise (fun a b => a.seq < b.seq)) :
    (turnsBefore turns b).Pairwise (fun a b => a.seq < b.seq) := by
  cases b with
  | none => exact hs
  | some b0 => exact List.Pairwise.sublist (List.filter_sublist _) hs

/-- Claim C5: pages returned by `get_turns` are strictly ordered by their
sequence marker (hence non-decreasing), and paginating with the first
returned turn's marker as the next cursor makes consecutive pages
concatenate to one contiguous suffix of the conversation's turn sequence —
no turn is skipped between the pages and none is duplicated. -/
theorem c5_get_turns_sorted_and_pagination_contiguous
    (turns : List ConversationTurn) (limit : Nat) (before : Option Int)
    (hs : turns.Pairwise (fun a b => a.seq < b.seq)) :
    (getTurns turns limit before).Pairwise (fun a b => a.seq < b.seq) ∧
    ∀ h0, (getTurns turns limit before).head? = some h0 →
      getTurns turns limit (some h0.seq) ++ getTurns turns limit before =
        (turnsBefore turns before).drop
          ((turnsBefore turns before).length -
            ((getTurns turns limit (some h0.seq)).length +
              (getTurns turns limit before).length)) := by
  have hF : (turnsBefore turns before).Pairwise (fun a b => a.seq < b.seq) :=
    pairwise_turnsBefore turns before hs
  constructor
  · exact List.Pairwise.sublist (List.drop_sublist _ _) hF
  · intro h0 hh0
    set F := turnsBefore turns before with hFdef
    set k := F.length - limit with hkdef
    have e1 : getTurns turns limit before = F.drop k := by
      simp only [getTurns]
    rw [e1] at hh0
    have hh0' : F[k]? = some h0 := by
      simpa only [List.head?_drop] using hh0
    obtain ⟨hklt, hgetk⟩ := List.getElem?_eq_some_iff.1 hh0'
    have hcF : h0 ∈ F := hgetk ▸ List.getElem_mem hklt
    have hGF : turns.filter (fun t => decide (t.seq < h0.seq)) =
        F.filter (fun t => decide (t.seq < h0.seq)) := by
      rw [hFdef]
      apply filter_lt_turnsBefore
      intro b0 hb0
      rw [hFdef, hb0] at hcF
      have hlt := (List.mem_filter.1 hcF).2
      exact le_of_lt (of_decide_eq_true hlt)
    have htake : F.filter (fun t => decide (t.seq < h0.seq)) = F.take k := by
      have h := sorted_filter_lt_eq_take F k hklt hF
      rwa [hgetk] at h
    have hGlen : (F.take k).length = k := by
      simp only [List.length_take]
      omega
    have e2 : getTurns turns limit (some h0.seq) =
        (F.take k).drop (k - limit) := by
      have hG : turnsBefore turns (some h0.seq) = F.take k := by
        show turns.filter (fun t => decide (t.seq < h0.seq)) = F.take k
        rw [hGF, htake]
      simp only [getTurns, hG, hGlen]
    rw [e1, e2]
    rw [drop_take_append_drop F k (k - limit) (Nat.sub_le _ _)
      (le_trans (Nat.sub_le _ _) (le_of_lt hklt))]
    congr 1
    simp only [List.length_drop, hGlen]
    omega

/-- Witness for C5 at a concrete input: over five strictly ordered turns with
page size 2, the newest page is sorted, and re-querying with the page's first
marker as cursor concatenates into the contiguous last four turns. -/
theorem c5_get_turns_sorted_and_pagination_contiguous_witness :
    (getTurns fiveTurns 2 none).Pairwise (fun a b => a.seq < b.seq) ∧
      getTurns fiveTurns 2 (some 4) ++ getTurns fiveTurns 2 none =
        (turnsBefore fiveTurns none).drop
          ((turnsBefore fiveTurns none).length -
            ((getTurns fiveTurns 2 (some 4)).length +
              (getTurns fiveTurns 2 none).length)) :=
  ⟨(c5_get_turns_sorted_and_pagination_contiguous fiveTurns 2 none
      (by decide)).1,
   (c5_get_turns_sorted_and_pagination_contiguous fiveTurns 2 none
      (by decide)).2 { seq := 4 } (by decide)⟩

end MiraAI
